import Mathlib

/-!
Shallow embedding of the corgo window reconciliation / render-synchronization
pipeline, translated from `src/window.rs` and `src/state/mod.rs`.

Modelling conventions:
* dioxus `ElementId` handles and taffy node keys are `Nat`;
* window sizes (`PhysicalSize<u32>`) are pairs of `Nat` (width, height);
* fallible collaborator calls (`taffy::compute_layout`, `taffy::layout`,
  channel sends) return `Except`/`Bool` results, and the source's `.unwrap()`
  on a failed result is modelled as a `panicked` step outcome;
* the shadow tree (`RealDom`) is abstracted to its depth-first node list,
  keeping exactly the per-node fields `WindowTask::run` touches
  (`state.layout.node`, `state.layout.layout`);
* the UI engine (`VirtualDom`) is an oracle: the mutation batch it returns
  and the `to_rerender` set reported by `RealDom::update_state` are inputs
  of the loop-step function, as the loop only branches on them.
-/

namespace Corgo

/-- A dioxus `ElementId`: a stable integer node handle. -/
abbrev ElementId := Nat

/-- Resolved geometry of one node, abstracting taffy's `Layout` record.
The pipeline never inspects the numeric values, it only stores them. -/
structure Rect where
  x : Int
  y : Int
  width : Int
  height : Int
  deriving DecidableEq, Repr

/-- `DirtyNodes` from window.rs:441-444: either the sentinel `All` or an
explicit list of element handles. -/
inductive DirtyNodes where
  | All : DirtyNodes
  | Some : List ElementId → DirtyNodes
  deriving DecidableEq, Repr

/-- `DirtyNodes::is_empty` (window.rs:447-452). -/
def DirtyNodes.is_empty : DirtyNodes → Bool
  | DirtyNodes.All => false
  | DirtyNodes.Some v => v.isEmpty

/-- `impl Default for DirtyNodes` (window.rs:456-459): `DirtyNodes::Some(vec![])`. -/
def DirtyNodes.default : DirtyNodes := DirtyNodes.Some []

/-- `std::mem::take(&mut dirty_nodes)` (window.rs:352): returns the stored
value and leaves the `Default` value in its place. -/
def DirtyNodes.take (d : DirtyNodes) : DirtyNodes × DirtyNodes :=
  (d, DirtyNodes.default)

/-- The dirty-set merge at window.rs:422-424:
`if let DirtyNodes::Some(nodes) = &mut dirty_nodes { nodes.extend(to_rerender) }`.
On the `All` variant nothing happens; on the explicit-set variant the
reported handles are appended. -/
def DirtyNodes.extend (d : DirtyNodes) (to_rerender : List ElementId) : DirtyNodes :=
  match d with
  | DirtyNodes.All => DirtyNodes.All
  | DirtyNodes.Some v => DirtyNodes.Some (v ++ to_rerender)

/-- The dirty-set lattice order described by the spec (§4.1), used to state
the amended lifecycle claim: an explicit set is below another iff it is
contained in it, and everything is below `All`. -/
def DirtyNodes.le (a b : DirtyNodes) : Bool :=
  match a, b with
  | _, DirtyNodes.All => true
  | DirtyNodes.All, DirtyNodes.Some _ => false
  | DirtyNodes.Some v, DirtyNodes.Some w => v.all (fun x => w.contains x)

/-- Window::spawn (window.rs:149): the dirty-nodes value the window starts
with, `DirtyNodes::Some(to_rerender.into_iter().collect())`, where
`to_rerender` is the reducer report for the initial `rebuild()` batch. -/
def initialDirtyNodes (to_rerender : List ElementId) : DirtyNodes :=
  DirtyNodes.Some to_rerender

/-- Window::spawn (window.rs:105): `let epoch = Epoch(0);`. The field is
moved into `WindowTask` and never written again. -/
def initialEpoch : Nat := 0

/-- `PreventDefault` from state/mod.rs:27-43: the event-suppression
categories. -/
inductive PreventDefault where
  | Focus | KeyPress | KeyRelease | KeyDown | KeyUp
  | MouseDown | Click | MouseEnter | MouseLeave | MouseOut
  | Unknown | MouseOver | ContextMenu | Wheel | MouseUp
  deriving DecidableEq, Repr

/-- `impl Default for PreventDefault` (state/mod.rs:45-49). -/
def PreventDefault.default : PreventDefault := PreventDefault.Unknown

/-- The attribute lookup inside `PreventDefault::reduce` (state/mod.rs:67-71):
`node.attributes().find(|a| a.name == "dioxus-prevent-default").and_then(|a| a.value.as_text())`.
A node's attribute list is modelled as (name, text-value) pairs. -/
def findPreventDefaultAttr (attributes : List (String × String)) : Option String :=
  (attributes.find? (fun a => a.1 == "dioxus-prevent-default")).map (fun a => a.2)

/-- The match arms of `PreventDefault::reduce` (state/mod.rs:72-87); the
catch-all arm `_ => return false` (covering both a missing attribute and an
unrecognized value) becomes `none`. -/
def parsePreventDefault : Option String → Option PreventDefault
  | some "onfocus" => some PreventDefault.Focus
  | some "onkeypress" => some PreventDefault.KeyPress
  | some "onkeyrelease" => some PreventDefault.KeyRelease
  | some "onkeydown" => some PreventDefault.KeyDown
  | some "onkeyup" => some PreventDefault.KeyUp
  | some "onclick" => some PreventDefault.Click
  | some "onmousedown" => some PreventDefault.MouseDown
  | some "onmouseup" => some PreventDefault.MouseUp
  | some "onmouseenter" => some PreventDefault.MouseEnter
  | some "onmouseover" => some PreventDefault.MouseOver
  | some "onmouseleave" => some PreventDefault.MouseLeave
  | some "onmouseout" => some PreventDefault.MouseOut
  | some "onwheel" => some PreventDefault.Wheel
  | some "oncontextmenu" => some PreventDefault.ContextMenu
  | _ => none

/-- `PreventDefault::reduce` (state/mod.rs:61-94): takes the current field
value (`self`) and the node's attributes; returns the new field value and
the changed flag. On `_ => return false` the field keeps its old value;
otherwise the recomputed value replaces the field only if different. -/
def PreventDefault.reduce (self : PreventDefault) (attributes : List (String × String)) :
    PreventDefault × Bool :=
  match parsePreventDefault (findPreventDefaultAttr attributes) with
  | none => (self, false)
  | some new => if new = self then (self, false) else (new, true)

/-- Modelled from the spec: `FocusState` lives in `src/state/focus.rs`,
which is not among the provided sources (state/mod.rs:8-9 only re-exports
it). The spec (§4.2) says `clean()` "returns whether focus changed since
the last call and resets the changed flag"; only that changed flag is
modelled here. -/
structure FocusState where
  focus_dirty : Bool
  deriving DecidableEq, Repr

/-- Modelled from the spec (§4.2): `clean()` returns the changed flag and
resets it. -/
def FocusState.clean (f : FocusState) : Bool × FocusState :=
  (f.focus_dirty, { focus_dirty := false })

/-- The mutable state of `WindowTask::run` relevant to the claims: the
struct fields `epoch` and `dirty_nodes` (window.rs:224-240) together with
the locals `size` and `resize` (window.rs:262-263) and the focus record
inside `WindowState` (window.rs:218-222). -/
structure WindowTaskState where
  size : Nat × Nat
  resize : Option (Nat × Nat)
  dirty_nodes : DirtyNodes
  epoch : Nat
  focus : FocusState
  deriving DecidableEq, Repr

/-- Per-node layout record: the `layout : StretchLayout` field of
`NodeState` (state/mod.rs:15-16; layout.rs itself is not among the sources,
its two fields are taken from their uses in window.rs:144-148 and 416-420:
`state.layout.node : Option<taffy node>` and
`state.layout.layout : Option<Layout>`). -/
structure LNode where
  layout_node : Option Nat
  layout_rect : Option Rect
  deriving DecidableEq, Repr

/-- The box-model solver (taffy) at the interface window.rs uses:
`compute_layout(root, size) -> Result<(), _>` and `layout(node) -> Result<Layout, _>`. -/
structure Solver where
  compute_layout : Nat → Nat × Nat → Except Unit Unit
  layout : Nat → Except Unit Rect

/-- `rdom[ElementId(rdom.root_id())].state.layout.node` (window.rs:408),
with the shadow tree abstracted to its depth-first node list whose head is
the root. -/
def rootLayoutNode (tree : List LNode) : Option Nat :=
  tree.head?.bind (fun n => n.layout_node)

/-- The layout write-back traversal (window.rs:416-420):
`rdom.traverse_depth_first_mut(|n| if let Some(node) = n.state.layout.node
  { n.state.layout.layout = Some(*stretch.borrow().layout(node).unwrap()) })`.
The first failing `layout` query surfaces as an error (the source unwraps it). -/
def traverseRecompute (solver : Solver) : List LNode → Except Unit (List LNode)
  | [] => Except.ok []
  | n :: rest =>
    match n.layout_node with
    | none =>
      match traverseRecompute solver rest with
      | Except.ok rest2 => Except.ok (n :: rest2)
      | Except.error e => Except.error e
    | some k =>
      match solver.layout k with
      | Except.error e => Except.error e
      | Except.ok r =>
        match traverseRecompute solver rest with
        | Except.ok rest2 => Except.ok ({ n with layout_rect := some r } :: rest2)
        | Except.error e => Except.error e

/-- Observable actions of one loop iteration, in the order the source
performs them; used to state the temporal claims. -/
inductive TraceEvent where
  | prune : Nat → TraceEvent
  | applyMutations : TraceEvent
  | updateState : TraceEvent
  | computeLayout : Nat × Nat → TraceEvent
  | relayoutNodes : TraceEvent
  | sendRedraw : TraceEvent
  deriving DecidableEq, Repr

/-- Outcome of one modelled step: a normal result or a Rust panic (an
`.unwrap()` on a failed `Result`/`Option`), each carrying the trace of
actions performed up to that point. -/
inductive StepResult (α : Type) where
  | ok : α → List TraceEvent → StepResult α
  | panicked : String → List TraceEvent → StepResult α
  deriving DecidableEq, Repr

/-- The trace carried by a step outcome. -/
def StepResult.trace {α : Type} : StepResult α → List TraceEvent
  | StepResult.ok _ t => t
  | StepResult.panicked _ t => t

/-- The trace of window.rs:386-397: `state.focus.prune(m, &rdom)` for every
mutation of the batch, then `rdom.apply_mutations(mutations)`, then
`rdom.update_state(..)`. The prune body lives in the absent focus.rs, so
only its invocation is traced. -/
def pruneApplyUpdateTrace (mutations : List Nat) : List TraceEvent :=
  mutations.map TraceEvent.prune ++
    [TraceEvent.applyMutations, TraceEvent.updateState]

/-- The body of the inner `if !to_rerender.is_empty() || resize.is_some()`
branch (window.rs:399-426) after the resize has been resolved: `dirty1` and
`size1` are the dirty set and size after the `resize.take()` line, `ev0` is
the trace accumulated so far. Performs
`stretch.compute_layout(root_layout_node.unwrap(), size).unwrap()`, the
depth-first layout write-back with its per-node `.unwrap()`, the dirty-set
merge (`DirtyNodes.extend`), and `proxy.send_event(Redraw(id)).unwrap()` —
`proxyAlive` says whether the event-loop receiver still exists. -/
def relayoutAndSignal (solver : Solver) (proxyAlive : Bool) (tree : List LNode)
    (to_rerender : List ElementId) (ev0 : List TraceEvent) (dirty1 : DirtyNodes)
    (size1 : Nat × Nat) (st : WindowTaskState) : StepResult (WindowTaskState × List LNode) :=
  match rootLayoutNode tree with
  | none => StepResult.panicked "root layout node missing" ev0
  | some root =>
    match solver.compute_layout root size1 with
    | Except.error _ => StepResult.panicked "compute_layout failed" ev0
    | Except.ok _ =>
      match traverseRecompute solver tree with
      | Except.error _ =>
        StepResult.panicked "layout query failed" (ev0 ++ [TraceEvent.computeLayout size1])
      | Except.ok tree2 =>
        if proxyAlive then
          StepResult.ok
            ({ st with
                resize := none
                size := size1
                dirty_nodes := DirtyNodes.extend dirty1 to_rerender }, tree2)
            (ev0 ++ [TraceEvent.computeLayout size1, TraceEvent.relayoutNodes,
              TraceEvent.sendRedraw])
        else
          StepResult.panicked "send_event failed"
            (ev0 ++ [TraceEvent.computeLayout size1, TraceEvent.relayoutNodes])

/-- The mutation-processing tail of one `WindowTask::run` iteration
(window.rs:383-427), translated clause by clause:

* outer guard: `if resize.is_some() || vdom.has_work()`;
* the prune / apply-mutations / update-state sequence
  (`pruneApplyUpdateTrace`); `mutations` and the `to_rerender` set reported
  by `update_state` are oracle inputs, as the loop only branches on them;
* inner guard: `if !to_rerender.is_empty() || resize.is_some()`;
* `if let Some(s) = resize.take() { dirty_nodes = DirtyNodes::All; size = s; }`,
  then the relayout / merge / signal tail (`relayoutAndSignal`). -/
def mutationStep (hasWork : Bool) (mutations : List Nat) (to_rerender : List ElementId)
    (solver : Solver) (proxyAlive : Bool) (tree : List LNode) (st : WindowTaskState) :
    StepResult (WindowTaskState × List LNode) :=
  if st.resize.isSome || hasWork then
    if !to_rerender.isEmpty || st.resize.isSome then
      match st.resize with
      | some s =>
        relayoutAndSignal solver proxyAlive tree to_rerender
          (pruneApplyUpdateTrace mutations) DirtyNodes.All s st
      | none =>
        relayoutAndSignal solver proxyAlive tree to_rerender
          (pruneApplyUpdateTrace mutations) st.dirty_nodes st.size st
    else
      StepResult.ok (st, tree) (pruneApplyUpdateTrace mutations)
  else
    StepResult.ok (st, tree) []

/-- The `Event::RedrawRequested(w) if w == id` arm (window.rs:348-377):
consult `focus.clean()`; on a focus change consider `All` nodes, otherwise
`mem::take` the stored dirty set; paint (submitting the task's epoch with
the display list, window.rs:362-368) only when the considered set is
non-empty; finally store `DirtyNodes::default()`. Returns the new task
state, the considered node set, and the epoch submitted with a paint (or
`none` when nothing was painted). -/
def handleRedrawRequested (st : WindowTaskState) : WindowTaskState × DirtyNodes × Option Nat :=
  let c := FocusState.clean st.focus
  let nt : DirtyNodes × DirtyNodes :=
    if c.1 then (DirtyNodes.All, st.dirty_nodes)
    else DirtyNodes.take st.dirty_nodes
  let submitted : Option Nat := if nt.1.is_empty then none else some st.epoch
  ({ st with focus := c.2, dirty_nodes := DirtyNodes.default }, nt.1, submitted)

/-- Outcome of a best-effort channel send. -/
inductive SendOutcome where
  | delivered
  | loggedAndDropped
  deriving DecidableEq, Repr

/-- `Window::send_event` (window.rs:180-187):
`event_tx.send(event).unwrap_or_else(|e| error!("{}", e))` — a failed send
(receiver gone) is logged and the event dropped. -/
def Window.send_event (receiverAlive : Bool) : SendOutcome :=
  if receiverAlive then SendOutcome.delivered else SendOutcome.loggedAndDropped

/-- `WindowTask::send_event` (window.rs:434-438):
`vdom.get_scheduler_channel().unbounded_send(..).unwrap_or_else(|e| error!("{}", e))`. -/
def WindowTask.send_event (receiverAlive : Bool) : SendOutcome :=
  if receiverAlive then SendOutcome.delivered else SendOutcome.loggedAndDropped

/-- The all-zero rectangle, a convenient concrete `Rect`. -/
def zeroRect : Rect := { x := 0, y := 0, width := 0, height := 0 }

/-- A solver whose queries all succeed, used to exercise the step functions
on concrete inputs. -/
def okSolver : Solver :=
  { compute_layout := fun _ _ => Except.ok ()
    layout := fun _ => Except.ok zeroRect }

/-- A solver whose queries all fail, used to exercise the failure paths. -/
def errSolver : Solver :=
  { compute_layout := fun _ _ => Except.error ()
    layout := fun _ => Except.error () }

/-! ## Helper lemmas -/

theorem DirtyNodes.le_refl (d : DirtyNodes) : DirtyNodes.le d d = true := by
  cases d with
  | All => rfl
  | Some v => exact List.all_eq_true.mpr (fun x hx => by simpa using hx)

theorem DirtyNodes.le_all (d : DirtyNodes) : DirtyNodes.le d DirtyNodes.All = true := by
  cases d <;> rfl

theorem DirtyNodes.le_extend (d : DirtyNodes) (xs : List ElementId) :
    DirtyNodes.le d (DirtyNodes.extend d xs) = true := by
  cases d with
  | All => rfl
  | Some v =>
    exact List.all_eq_true.mpr
      (fun x hx => by simpa using List.mem_append_left xs (by simpa using hx))

/-- A successful `relayoutAndSignal` outcome always pins the resulting task
state: the resize is consumed, the size becomes `size1`, and the dirty set
is the merge of `dirty1` with the reducer report. -/
theorem relayoutAndSignal_ok_shape {solver : Solver} {proxyAlive : Bool} {tree : List LNode}
    {to_rerender : List ElementId} {ev0 : List TraceEvent} {dirty1 : DirtyNodes}
    {size1 : Nat × Nat} {st st2 : WindowTaskState} {tree2 : List LNode}
    {trace : List TraceEvent}
    (heq : relayoutAndSignal solver proxyAlive tree to_rerender ev0 dirty1 size1 st
      = StepResult.ok (st2, tree2) trace) :
    st2 = { st with
            resize := none
            size := size1
            dirty_nodes := DirtyNodes.extend dirty1 to_rerender } := by
  unfold relayoutAndSignal at heq
  split at heq
  · exact StepResult.noConfusion heq
  · split at heq
    · exact StepResult.noConfusion heq
    · split at heq
      · exact StepResult.noConfusion heq
      · split at heq
        · injection heq with ha hb
          injection ha with h5 h6
          exact h5.symm
        · exact StepResult.noConfusion heq

/-- Every trace produced by `relayoutAndSignal` extends the already
accumulated trace `ev0`. -/
theorem relayoutAndSignal_trace (solver : Solver) (proxyAlive : Bool) (tree : List LNode)
    (to_rerender : List ElementId) (ev0 : List TraceEvent) (dirty1 : DirtyNodes)
    (size1 : Nat × Nat) (st : WindowTaskState) :
    ∃ tail, (relayoutAndSignal solver proxyAlive tree to_rerender ev0 dirty1 size1 st).trace
      = ev0 ++ tail := by
  unfold relayoutAndSignal
  split
  · exact ⟨[], (List.append_nil ev0).symm⟩
  · split
    · exact ⟨[], (List.append_nil ev0).symm⟩
    · split
      · exact ⟨_, rfl⟩
      · split
        · exact ⟨_, rfl⟩
        · exact ⟨_, rfl⟩

/-- A successful `mutationStep` outcome either leaves the task state
untouched, or consumed no resize and merged the reducer report, or consumed
the pending resize into `All`. -/
theorem mutationStep_ok_state {hasWork : Bool} {mutations : List Nat}
    {to_rerender : List ElementId} {solver : Solver} {proxyAlive : Bool}
    {tree : List LNode} {st st2 : WindowTaskState} {tree2 : List LNode}
    {trace : List TraceEvent}
    (heq : mutationStep hasWork mutations to_rerender solver proxyAlive tree st
      = StepResult.ok (st2, tree2) trace) :
    st2 = st
  ∨ st2 = { st with
            resize := none
            size := st.size
            dirty_nodes := DirtyNodes.extend st.dirty_nodes to_rerender }
  ∨ ∃ s, st.resize = some s
      ∧ st2 = { st with
                resize := none
                size := s
                dirty_nodes := DirtyNodes.extend DirtyNodes.All to_rerender } := by
  unfold mutationStep at heq
  by_cases h1 : (st.resize.isSome || hasWork) = true
  · rw [if_pos h1] at heq
    by_cases h2 : (!to_rerender.isEmpty || st.resize.isSome) = true
    · rw [if_pos h2] at heq
      cases hres : st.resize with
      | none =>
        rw [hres] at heq
        exact Or.inr (Or.inl (relayoutAndSignal_ok_shape heq))
      | some s =>
        rw [hres] at heq
        exact Or.inr (Or.inr ⟨s, rfl, relayoutAndSignal_ok_shape heq⟩)
    · rw [if_neg h2] at heq
      injection heq with ha hb
      injection ha with h5 h6
      exact Or.inl h5.symm
  · rw [if_neg h1] at heq
    injection heq with ha hb
    injection ha with h5 h6
    exact Or.inl h5.symm

/-- If every layout query the write-back traversal will make succeeds, the
traversal succeeds, preserves each node's measurement handle, and stores the
solver's rectangle on every node that has a measurement handle. -/
theorem traverseRecompute_total (solver : Solver) (tree : List LNode)
    (hl : ∀ n, n ∈ tree → ∀ k, n.layout_node = some k →
      ∃ r, solver.layout k = Except.ok r) :
    ∃ tree2, traverseRecompute solver tree = Except.ok tree2 ∧
      List.Forall₂ (fun n n2 => n2.layout_node = n.layout_node ∧
        ∀ k, n.layout_node = some k →
          ∃ r, solver.layout k = Except.ok r ∧ n2.layout_rect = some r) tree tree2 := by
  induction tree with
  | nil => exact ⟨[], rfl, List.Forall₂.nil⟩
  | cons n rest ih =>
    obtain ⟨rest2, hrest, hfa⟩ := ih (fun m hm k hk => hl m (List.mem_cons_of_mem _ hm) k hk)
    cases hn : n.layout_node with
    | none =>
      refine ⟨n :: rest2, ?_, ?_⟩
      · simp [traverseRecompute, hn, hrest]
      · refine List.Forall₂.cons ⟨rfl, ?_⟩ hfa
        intro k hk
        rw [hn] at hk
        simp at hk
    | some k0 =>
      obtain ⟨r, hr⟩ := hl n (List.mem_cons_self _ _) k0 hn
      refine ⟨{ n with layout_rect := some r } :: rest2, ?_, ?_⟩
      · simp [traverseRecompute, hn, hr, hrest]
      · refine List.Forall₂.cons ⟨rfl, ?_⟩ hfa
        intro k hk
        rw [hn] at hk
        injection hk with hk2
        subst hk2
        exact ⟨r, hr, rfl⟩

/-! ## Claims -/

/-- C2: the spec requires a solver failure to be fatal to that paint cycle
only — skip and retry, never crash. The code instead calls `.unwrap()` on
`compute_layout` (window.rs:405-414): on a solver error the mutation step
panics, terminating the window task instead of skipping the cycle. This
theorem evaluates the embedded step at the failing input. -/
theorem c2_solver_failure_panics_the_task :
    mutationStep true [] [1] errSolver true [{ layout_node := some 0, layout_rect := none }]
      { size := (800, 600)
        resize := none
        dirty_nodes := DirtyNodes.Some []
        epoch := 0
        focus := { focus_dirty := false } }
      = StepResult.panicked "compute_layout failed"
          [TraceEvent.applyMutations, TraceEvent.updateState] := rfl

/-- C3 counterexample: the claim says an absent (or unrecognized)
`dioxus-prevent-default` attribute makes the suppression field resolve to
`Unknown`. On a node whose field was previously `Click`, reducing with no
attributes leaves the field at `Click`, not `Unknown` (state/mod.rs:86:
`_ => return false` keeps the old value). -/
theorem c3_counterexample_absent_attr_keeps_old_value :
    (PreventDefault.reduce PreventDefault.Click []).1 = PreventDefault.Click
  ∧ PreventDefault.Click ≠ PreventDefault.Unknown := by
  exact ⟨rfl, by decide⟩

/-- C3 (amended): "onclick" resolves the field to `Click` and "onwheel" to
`Wheel`; an absent or unrecognized attribute value leaves the field
unchanged — so it resolves to `Unknown` only because `Unknown` is the
default a node starts with. -/
theorem c3_suppression_mapping (self : PreventDefault)
    (attributes : List (String × String)) :
    (findPreventDefaultAttr attributes = some "onclick" →
      (PreventDefault.reduce self attributes).1 = PreventDefault.Click)
  ∧ (findPreventDefaultAttr attributes = some "onwheel" →
      (PreventDefault.reduce self attributes).1 = PreventDefault.Wheel)
  ∧ (parsePreventDefault (findPreventDefaultAttr attributes) = none →
      (PreventDefault.reduce self attributes).1 = self)
  ∧ PreventDefault.default = PreventDefault.Unknown := by
  refine ⟨?_, ?_, ?_, rfl⟩
  · intro h
    have hp : parsePreventDefault (findPreventDefaultAttr attributes)
        = some PreventDefault.Click := by rw [h]; rfl
    simp only [PreventDefault.reduce, hp]
    split
    · next hc => exact hc.symm
    · rfl
  · intro h
    have hp : parsePreventDefault (findPreventDefaultAttr attributes)
        = some PreventDefault.Wheel := by rw [h]; rfl
    simp only [PreventDefault.reduce, hp]
    split
    · next hc => exact hc.symm
    · rfl
  · intro h
    simp only [PreventDefault.reduce, h]

/-- C3 witness: the amended mapping evaluated at concrete nodes. -/
theorem c3_suppression_mapping_witness :
    (PreventDefault.reduce PreventDefault.Unknown
        [("dioxus-prevent-default", "onclick")]).1 = PreventDefault.Click
  ∧ (PreventDefault.reduce PreventDefault.Unknown
        [("dioxus-prevent-default", "onwheel")]).1 = PreventDefault.Wheel
  ∧ (PreventDefault.reduce PreventDefault.Unknown
        [("dioxus-prevent-default", "bogus")]).1 = PreventDefault.Unknown :=
  ⟨(c3_suppression_mapping PreventDefault.Unknown
      [("dioxus-prevent-default", "onclick")]).1 (by decide),
   (c3_suppression_mapping PreventDefault.Unknown
      [("dioxus-prevent-default", "onwheel")]).2.1 (by decide),
   (c3_suppression_mapping PreventDefault.Unknown
      [("dioxus-prevent-default", "bogus")]).2.2.1 (by decide)⟩

/-- C4: when handling `RedrawRequested` for its own window, the node set
considered for painting is `All` exactly when `focus.clean()` reports a
focus change, and otherwise is the stored dirty set obtained by a
read-and-reset (`mem::take`) whose reset value is the empty bottom
element — so a focus change always forces a full repaint. -/
theorem c4_focus_change_forces_full_repaint (st : WindowTaskState) :
    (handleRedrawRequested st).2.1
      = (if st.focus.focus_dirty then DirtyNodes.All
          else (DirtyNodes.take st.dirty_nodes).1)
  ∧ DirtyNodes.take st.dirty_nodes = (st.dirty_nodes, DirtyNodes.default)
  ∧ DirtyNodes.is_empty DirtyNodes.default = true := by
  refine ⟨?_, rfl, rfl⟩
  by_cases h : st.focus.focus_dirty
  · simp [handleRedrawRequested, FocusState.clean, DirtyNodes.take, h]
  · simp [handleRedrawRequested, FocusState.clean, DirtyNodes.take, h]

/-- C6: merging reducer-reported handles into the dirty set appends them
when the value is the explicit-set variant and leaves `All` unchanged —
`All` is the absorbing top element of the merge. -/
theorem c6_merge_all_absorbing (v xs : List ElementId) :
    DirtyNodes.extend DirtyNodes.All xs = DirtyNodes.All
  ∧ DirtyNodes.extend (DirtyNodes.Some v) xs = DirtyNodes.Some (v ++ xs) :=
  ⟨rfl, rfl⟩

/-- C9: the two named send helpers do log-and-drop a failed send
(window.rs:180-187 and 434-438), but the wake-up signal send in the loop is
`proxy.send_event(Redraw(id)).unwrap()` (window.rs:425): when the event-loop
receiver is gone the window task panics instead of logging and dropping.
This theorem evaluates the embedded step at the failing input. -/
theorem c9_proxy_send_failure_panics :
    Window.send_event false = SendOutcome.loggedAndDropped
  ∧ WindowTask.send_event false = SendOutcome.loggedAndDropped
  ∧ mutationStep true [] [1] okSolver false [{ layout_node := some 0, layout_rect := none }]
      { size := (800, 600)
        resize := none
        dirty_nodes := DirtyNodes.Some []
        epoch := 0
        focus := { focus_dirty := false } }
      = StepResult.panicked "send_event failed"
          [TraceEvent.applyMutations, TraceEvent.updateState,
           TraceEvent.computeLayout (800, 600), TraceEvent.relayoutNodes] :=
  ⟨rfl, rfl, rfl⟩

/-- C5: in every mutation-processing step that does any work, the trace
starts with focus-state prune for each mutation of the batch, strictly
followed by applying the batch to the shadow tree, strictly followed by the
derived-state reducer — whatever happens afterwards. -/
theorem c5_prune_before_apply_before_update (hasWork : Bool) (mutations : List Nat)
    (to_rerender : List ElementId) (solver : Solver) (proxyAlive : Bool)
    (tree : List LNode) (st : WindowTaskState)
    (h : (st.resize.isSome || hasWork) = true) :
    ∃ rest, (mutationStep hasWork mutations to_rerender solver proxyAlive tree st).trace
      = mutations.map TraceEvent.prune ++
          ([TraceEvent.applyMutations, TraceEvent.updateState] ++ rest) := by
  unfold mutationStep
  rw [if_pos h]
  by_cases h2 : (!to_rerender.isEmpty || st.resize.isSome) = true
  · rw [if_pos h2]
    cases hres : st.resize with
    | none =>
      obtain ⟨tail, htail⟩ := relayoutAndSignal_trace solver proxyAlive tree to_rerender
        (pruneApplyUpdateTrace mutations) st.dirty_nodes st.size st
      exact ⟨tail, htail.trans (by simp [pruneApplyUpdateTrace])⟩
    | some s =>
      obtain ⟨tail, htail⟩ := relayoutAndSignal_trace solver proxyAlive tree to_rerender
        (pruneApplyUpdateTrace mutations) DirtyNodes.All s st
      exact ⟨tail, htail.trans (by simp [pruneApplyUpdateTrace])⟩
  · rw [if_neg h2]
    exact ⟨[], by simp [StepResult.trace, pruneApplyUpdateTrace]⟩

/-- C5 witness: the ordering evaluated on a concrete batch of two
mutations. -/
theorem c5_prune_before_apply_before_update_witness :
    ∃ rest,
      (mutationStep true [3, 4] [] okSolver true [{ layout_node := some 0, layout_rect := none }]
        { size := (800, 600)
          resize := none
          dirty_nodes := DirtyNodes.Some []
          epoch := 0
          focus := { focus_dirty := false } }).trace
      = [3, 4].map TraceEvent.prune ++
          ([TraceEvent.applyMutations, TraceEvent.updateState] ++ rest) :=
  c5_prune_before_apply_before_update true [3, 4] [] okSolver true
    [{ layout_node := some 0, layout_rect := none }]
    { size := (800, 600)
      resize := none
      dirty_nodes := DirtyNodes.Some []
      epoch := 0
      focus := { focus_dirty := false } } rfl

/-- C1: if a resize is pending and the reducer reports zero changed nodes,
the step still (given a solver and proxy that do not fail, which the source
unwraps) consumes the resize, sets the dirty set to `All`, updates the
tracked window size, recomputes layout at the new size for every node whose
measurement node exists, and emits exactly one `Redraw` signal. -/
theorem c1_pending_resize_forces_full_relayout (hasWork : Bool) (mutations : List Nat)
    (solver : Solver) (tree : List LNode) (st : WindowTaskState)
    (s : Nat × Nat) (root : Nat)
    (hres : st.resize = some s)
    (hroot : rootLayoutNode tree = some root)
    (hcl : solver.compute_layout root s = Except.ok ())
    (hl : ∀ n, n ∈ tree → ∀ k, n.layout_node = some k →
      ∃ r, solver.layout k = Except.ok r) :
    ∃ tree2,
      mutationStep hasWork mutations [] solver true tree st
        = StepResult.ok
            ({ st with resize := none, size := s, dirty_nodes := DirtyNodes.All }, tree2)
            (pruneApplyUpdateTrace mutations ++
              [TraceEvent.computeLayout s, TraceEvent.relayoutNodes, TraceEvent.sendRedraw])
      ∧ (mutationStep hasWork mutations [] solver true tree st).trace.count
          TraceEvent.sendRedraw = 1
      ∧ List.Forall₂ (fun n n2 => n2.layout_node = n.layout_node ∧
          ∀ k, n.layout_node = some k →
            ∃ r, solver.layout k = Except.ok r ∧ n2.layout_rect = some r) tree tree2 := by
  obtain ⟨tree2, htrav, hfa⟩ := traverseRecompute_total solver tree hl
  have h1 : (st.resize.isSome || hasWork) = true := by rw [hres]; rfl
  have h2 : (!([] : List ElementId).isEmpty || st.resize.isSome) = true := by
    rw [hres]; rfl
  have hstep : mutationStep hasWork mutations [] solver true tree st
      = StepResult.ok
          ({ st with resize := none, size := s, dirty_nodes := DirtyNodes.All }, tree2)
          (pruneApplyUpdateTrace mutations ++
            [TraceEvent.computeLayout s, TraceEvent.relayoutNodes, TraceEvent.sendRedraw]) := by
    unfold mutationStep
    rw [if_pos h1, if_pos h2, hres]
    show relayoutAndSignal solver true tree [] (pruneApplyUpdateTrace mutations)
        DirtyNodes.All s st = _
    unfold relayoutAndSignal
    simp only [hroot, hcl, htrav]
    rfl
  refine ⟨tree2, hstep, ?_, hfa⟩
  rw [hstep]
  simp only [StepResult.trace, pruneApplyUpdateTrace, List.append_assoc, List.count_append]
  have hz : (mutations.map TraceEvent.prune).count TraceEvent.sendRedraw = 0 :=
    List.count_eq_zero.mpr (by simp)
  rw [hz]
  rfl

/-- C1 witness: an 800×600 window with a pending 400×300 resize, an empty
to-rerender report and a one-node tree. -/
theorem c1_pending_resize_forces_full_relayout_witness :
    ∃ tree2,
      mutationStep false [7] [] okSolver true [{ layout_node := some 0, layout_rect := none }]
        { size := (800, 600)
          resize := some (400, 300)
          dirty_nodes := DirtyNodes.Some []
          epoch := 0
          focus := { focus_dirty := false } }
        = StepResult.ok
            ({ size := (400, 300)
               resize := none
               dirty_nodes := DirtyNodes.All
               epoch := 0
               focus := { focus_dirty := false } }, tree2)
            (pruneApplyUpdateTrace [7] ++
              [TraceEvent.computeLayout (400, 300), TraceEvent.relayoutNodes,
               TraceEvent.sendRedraw])
      ∧ (mutationStep false [7] [] okSolver true [{ layout_node := some 0, layout_rect := none }]
          { size := (800, 600)
            resize := some (400, 300)
            dirty_nodes := DirtyNodes.Some []
            epoch := 0
            focus := { focus_dirty := false } }).trace.count TraceEvent.sendRedraw = 1
      ∧ List.Forall₂ (fun (n n2 : LNode) => n2.layout_node = n.layout_node ∧
          ∀ k, n.layout_node = some k →
            ∃ r, okSolver.layout k = Except.ok r ∧ n2.layout_rect = some r)
          [{ layout_node := some 0, layout_rect := none }] tree2 :=
  c1_pending_resize_forces_full_relayout false [7] okSolver
    [{ layout_node := some 0, layout_rect := none }]
    { size := (800, 600)
      resize := some (400, 300)
      dirty_nodes := DirtyNodes.Some []
      epoch := 0
      focus := { focus_dirty := false } }
    (400, 300) 0 rfl rfl rfl
    (fun _ _ _ _ => ⟨zeroRect, rfl⟩)

/-- C7 counterexample: the dirty-set value is not created empty at window
start — `Window::spawn` creates it holding the initial rebuild's
to-rerender set, so with one reported handle it is non-empty. -/
theorem c7_counterexample_initial_dirty_not_empty :
    initialDirtyNodes [1] = DirtyNodes.Some [1]
  ∧ DirtyNodes.is_empty (initialDirtyNodes [1]) = false := ⟨rfl, rfl⟩

/-- C7 (amended): the dirty-set value is created at window start holding
the initial rebuild's to-rerender handles (so it is empty only when that
report is empty); during mutation processing it only moves up the dirty-set
lattice (handles are merged in, or it is replaced by `All` when a resize is
consumed); and it is reset to the default empty explicit-set value each
time a `RedrawRequested` event is handled, whether or not a paint was
committed. -/
theorem c7_dirty_lifecycle (tr : List ElementId) (hasWork : Bool) (mutations : List Nat)
    (to_rerender : List ElementId) (solver : Solver) (proxyAlive : Bool)
    (tree tree2 : List LNode) (st st2 : WindowTaskState) (trace : List TraceEvent) :
    initialDirtyNodes tr = DirtyNodes.Some tr
  ∧ (mutationStep hasWork mutations to_rerender solver proxyAlive tree st
        = StepResult.ok (st2, tree2) trace →
      DirtyNodes.le st.dirty_nodes st2.dirty_nodes = true)
  ∧ (handleRedrawRequested st).1.dirty_nodes = DirtyNodes.default := by
  refine ⟨rfl, ?_, rfl⟩
  intro heq
  rcases mutationStep_ok_state heq with h | h | ⟨s, hs, h⟩
  · rw [h]
    exact DirtyNodes.le_refl st.dirty_nodes
  · rw [h]
    exact DirtyNodes.le_extend st.dirty_nodes to_rerender
  · rw [h]
    exact DirtyNodes.le_all st.dirty_nodes

/-- C7 witness: the lifecycle evaluated on a concrete step that merges the
report `[2]` into the stored dirty set `[5]`. -/
theorem c7_dirty_lifecycle_witness :
    initialDirtyNodes [9] = DirtyNodes.Some [9]
  ∧ DirtyNodes.le (DirtyNodes.Some [5]) (DirtyNodes.Some ([5] ++ [2])) = true := by
  have h := c7_dirty_lifecycle [9] true [] [2] okSolver true
    [{ layout_node := some 0, layout_rect := none }]
    [{ layout_node := some 0, layout_rect := some zeroRect }]
    { size := (800, 600)
      resize := none
      dirty_nodes := DirtyNodes.Some [5]
      epoch := 0
      focus := { focus_dirty := false } }
    { size := (800, 600)
      resize := none
      dirty_nodes := DirtyNodes.Some [5, 2]
      epoch := 0
      focus := { focus_dirty := false } }
    [TraceEvent.applyMutations, TraceEvent.updateState,
     TraceEvent.computeLayout (800, 600), TraceEvent.relayoutNodes, TraceEvent.sendRedraw]
  exact ⟨h.1, h.2.1 rfl⟩

/-- C8 counterexample: two successive paint submissions of one window both
carry epoch 0 — the epoch is never incremented, so the sequence of
submitted epochs does not increase. The scenario paints once from a dirty
set `[1]`, marks handle `2` dirty in a mutation step, and paints again. -/
theorem c8_counterexample_epoch_does_not_increase :
    (handleRedrawRequested
        { size := (800, 600)
          resize := none
          dirty_nodes := DirtyNodes.Some [1]
          epoch := initialEpoch
          focus := { focus_dirty := false } }).2.2 = some 0
  ∧ mutationStep true [] [2] okSolver true [{ layout_node := some 0, layout_rect := none }]
      (handleRedrawRequested
        { size := (800, 600)
          resize := none
          dirty_nodes := DirtyNodes.Some [1]
          epoch := initialEpoch
          focus := { focus_dirty := false } }).1
      = StepResult.ok
          ({ size := (800, 600)
             resize := none
             dirty_nodes := DirtyNodes.Some [2]
             epoch := 0
             focus := { focus_dirty := false } },
           [{ layout_node := some 0, layout_rect := some zeroRect }])
          [TraceEvent.applyMutations, TraceEvent.updateState,
           TraceEvent.computeLayout (800, 600), TraceEvent.relayoutNodes,
           TraceEvent.sendRedraw]
  ∧ (handleRedrawRequested
        { size := (800, 600)
          resize := none
          dirty_nodes := DirtyNodes.Some [2]
          epoch := 0
          focus := { focus_dirty := false } }).2.2 = some 0
  ∧ ¬ (0 : Nat) < 0 :=
  ⟨rfl, rfl, rfl, by decide⟩

/-- C8 (amended): the epoch attached to every submitted paint payload is
the window's epoch field, which starts at 0 and is never advanced by either
the redraw handler or the mutation step — successive submissions carry
equal epochs (non-decreasing, never strictly increasing). -/
theorem c8_epoch_constant (hasWork : Bool) (mutations : List Nat)
    (to_rerender : List ElementId) (solver : Solver) (proxyAlive : Bool)
    (tree tree2 : List LNode) (st st2 : WindowTaskState)
    (trace : List TraceEvent) (e : Nat) :
    initialEpoch = 0
  ∧ (handleRedrawRequested st).1.epoch = st.epoch
  ∧ ((handleRedrawRequested st).2.2 = some e → e = st.epoch)
  ∧ (mutationStep hasWork mutations to_rerender solver proxyAlive tree st
        = StepResult.ok (st2, tree2) trace → st2.epoch = st.epoch) := by
  refine ⟨rfl, rfl, ?_, ?_⟩
  · intro hsub
    by_cases h1 : st.focus.focus_dirty = true
    · simp [handleRedrawRequested, FocusState.clean, DirtyNodes.is_empty, h1] at hsub
      exact hsub.symm
    · by_cases h2 : DirtyNodes.is_empty st.dirty_nodes = true
      · simp [handleRedrawRequested, FocusState.clean, DirtyNodes.take, h1, h2] at hsub
      · simp [handleRedrawRequested, FocusState.clean, DirtyNodes.take, h1, h2] at hsub
        exact hsub.symm
  · intro heq
    rcases mutationStep_ok_state heq with h | h | ⟨s, hs, h⟩ <;> rw [h]

/-- C8 witness: the amended statement evaluated at a concrete painting
state. -/
theorem c8_epoch_constant_witness :
    (5 : Nat) = ({ size := (800, 600)
                   resize := none
                   dirty_nodes := DirtyNodes.Some [1]
                   epoch := 5
                   focus := { focus_dirty := false } : WindowTaskState }).epoch
  ∧ ({ size := (800, 600)
       resize := none
       dirty_nodes := DirtyNodes.Some []
       epoch := 5
       focus := { focus_dirty := false } : WindowTaskState }).epoch = 5 := by
  have h := c8_epoch_constant true [] [2] okSolver true
    [{ layout_node := some 0, layout_rect := none }]
    [{ layout_node := some 0, layout_rect := some zeroRect }]
    { size := (800, 600)
      resize := none
      dirty_nodes := DirtyNodes.Some [1]
      epoch := 5
      focus := { focus_dirty := false } }
    { size := (800, 600)
      resize := none
      dirty_nodes := DirtyNodes.Some [1, 2]
      epoch := 5
      focus := { focus_dirty := false } }
    [TraceEvent.applyMutations, TraceEvent.updateState,
     TraceEvent.computeLayout (800, 600), TraceEvent.relayoutNodes, TraceEvent.sendRedraw] 5
  exact ⟨h.2.2.1 rfl, h.2.2.2 rfl⟩

/-- C10: after any `RedrawRequested` handling the stored dirty set equals
the default empty explicit-set value; in particular, when the focus changed
the considered set is `All` and the previously accumulated explicit handles
are discarded (overwritten by the default) without being individually
painted. -/
theorem c10_redraw_resets_dirty_to_default (st : WindowTaskState) :
    (handleRedrawRequested st).1.dirty_nodes = DirtyNodes.default
  ∧ DirtyNodes.default = DirtyNodes.Some []
  ∧ (handleRedrawRequested { st with focus := { focus_dirty := true } }).2.1
      = DirtyNodes.All
  ∧ (handleRedrawRequested { st with focus := { focus_dirty := true } }).1.dirty_nodes
      = DirtyNodes.Some [] :=
  ⟨rfl, rfl, rfl, rfl⟩

end Corgo
